import Mathlib

/-!
Shallow embedding of the doc-query backend (multi-tenant RAG service) and
proofs about it.  Sections follow the source files:

* `document_processor.py` — fallback chunker `_simple_chunk_text`;
* `vector_store.py` — ChromaDB wrapper: `index_document`, `search_similar`,
  `get_document_chunks`, `delete_document`;
* `llm_service.py` — RAG orchestration: `generate_rag_response`,
  `generate_streaming_rag_response`, `_prepare_context`, `_prepare_citations`;
* `tenant_provisioning.py` — `get_tenant_usage`, `check_tenant_limits`;
* `routers/documents.py` — `upload_document`;
* `routers/chat.py` — `get_feedback_stats`, `get_feedback_trends`.

External collaborators (OpenAI embeddings/completions, the ChromaDB backend,
the filesystem) are modelled as explicit parameters; Python text is modelled
as `List Char` where character-level reasoning is needed and as `String`
elsewhere; Python floats are modelled as rationals.
-/

namespace DocQuery

/-! ## Chunking engine (`document_processor.py`, `_simple_chunk_text`) -/

/-- The whitespace characters Python's `str.strip()` removes (ASCII range). -/
def isPyWs (c : Char) : Bool :=
  c = ' ' || c = '\t' || c = '\n' || c = '\r' || c = '\x0b' || c = '\x0c'

/-- Python `s.strip()`: drop leading and trailing whitespace. -/
def pyStrip (s : List Char) : List Char :=
  ((s.dropWhile isPyWs).reverse.dropWhile isPyWs).reverse

/-- Python `text.split("\x5cn\x5cn")`: cut at each leftmost, non-overlapping
occurrence of the two-newline separator. -/
def splitParas : List Char → List (List Char)
  | [] => [[]]
  | '\n' :: '\n' :: rest => [] :: splitParas rest
  | c :: rest =>
    match splitParas rest with
    | [] => [[c]]
    | p :: ps => (c :: p) :: ps

/-- A chunk emitted by the fallback chunker: `{'id', 'content',
'metadata': {'chunk_id', 'chunk_size', 'method': 'simple'}}`; `chunk_size`
is the length of the accumulated paragraph text before stripping. -/
structure SimpleChunk where
  id : Nat
  content : List Char
  chunk_size : Nat
deriving DecidableEq, Repr

/-- The loop state of `_simple_chunk_text`: chunks emitted so far, the next
chunk id, and the accumulated `current_chunk` text. -/
structure ChunkState where
  chunks : List SimpleChunk
  chunkId : Nat
  current : List Char
deriving DecidableEq, Repr

/-- One iteration of the paragraph loop in `_simple_chunk_text`. -/
def simpleStep (chunkSize : Nat) (st : ChunkState) (p : List Char) : ChunkState :=
  if st.current.length + p.length ≤ chunkSize then
    { st with current := st.current ++ p ++ ['\n', '\n'] }
  else if pyStrip st.current ≠ [] then
    { chunks := st.chunks ++ [⟨st.chunkId, pyStrip st.current, st.current.length⟩],
      chunkId := st.chunkId + 1,
      current := p ++ ['\n', '\n'] }
  else
    { st with current := p ++ ['\n', '\n'] }

/-- The trailing `if current_chunk.strip(): chunks.append(...)` of
`_simple_chunk_text`. -/
def finalizeChunks (st : ChunkState) : List SimpleChunk :=
  if pyStrip st.current ≠ [] then
    st.chunks ++ [⟨st.chunkId, pyStrip st.current, st.current.length⟩]
  else
    st.chunks

/-- `DocumentProcessor._simple_chunk_text`: split on blank lines, accumulate
paragraphs up to `chunk_size` (source default 1000), emit the stripped
accumulator whenever it is non-empty, and finally emit the stripped remainder
when non-empty. -/
def simple_chunk_text (chunkSize : Nat) (text : List Char) : List SimpleChunk :=
  finalizeChunks ((splitParas text).foldl (simpleStep chunkSize) ⟨[], 0, []⟩)

/-- `text` has at least one non-whitespace character. -/
def hasContent (s : List Char) : Prop := ∃ c ∈ s, isPyWs c = false

instance (s : List Char) : Decidable (hasContent s) := by
  unfold hasContent; infer_instance

lemma pyStrip_eq_nil_iff (s : List Char) : pyStrip s = [] ↔ ∀ c ∈ s, isPyWs c := by
  unfold pyStrip
  rw [List.reverse_eq_nil_iff, List.dropWhile_eq_nil_iff]
  constructor
  · intro h c hc
    have hsplit := List.takeWhile_append_dropWhile (p := isPyWs) (l := s)
    rcases List.mem_append.1 (hsplit ▸ hc) with h1 | h2
    · exact List.mem_takeWhile_imp h1
    · exact h c (List.mem_reverse.2 h2)
  · intro h c hc
    exact h c (List.Sublist.mem (List.mem_reverse.1 hc) (List.dropWhile_sublist _))

lemma pyStrip_ne_nil_iff (s : List Char) : pyStrip s ≠ [] ↔ hasContent s := by
  rw [Ne, pyStrip_eq_nil_iff]
  unfold hasContent
  push_neg
  simp [Bool.not_eq_true]

lemma hasContent_append_left {s t : List Char} (h : hasContent s) :
    hasContent (s ++ t) := by
  obtain ⟨c, hc, hw⟩ := h
  exact ⟨c, List.mem_append.2 (Or.inl hc), hw⟩

lemma hasContent_append_right {s t : List Char} (h : hasContent t) :
    hasContent (s ++ t) := by
  obtain ⟨c, hc, hw⟩ := h
  exact ⟨c, List.mem_append.2 (Or.inr hc), hw⟩

lemma splitParas_ne_nil (l : List Char) : splitParas l ≠ [] := by
  induction l using splitParas.induct with
  | case1 => simp [splitParas.eq_1]
  | case2 rest ih => simp [splitParas.eq_2]
  | case3 c rest hne hnil ih => rw [splitParas.eq_3 c rest hne, hnil]; simp
  | case4 c rest hne p ps hcons ih => rw [splitParas.eq_3 c rest hne, hcons]; simp

/-- If some character of `l` is not whitespace, some paragraph of
`splitParas l` has a non-whitespace character (the separator is whitespace). -/
lemma splitParas_hasContent {l : List Char} (h : hasContent l) :
    ∃ p ∈ splitParas l, hasContent p := by
  induction l using splitParas.induct with
  | case1 => obtain ⟨c, hc, _⟩ := h; simp at hc
  | case2 rest ih =>
    obtain ⟨c, hc, hw⟩ := h
    rcases List.mem_cons.1 hc with hc | hc
    · rw [hc] at hw; exact absurd hw (by decide)
    · rcases List.mem_cons.1 hc with hc | hc
      · rw [hc] at hw; exact absurd hw (by decide)
      · obtain ⟨p, hp, hcp⟩ := ih ⟨c, hc, hw⟩
        exact ⟨p, by rw [splitParas.eq_2]; exact List.mem_cons_of_mem _ hp, hcp⟩
  | case3 c rest hne hnil ih => exact absurd hnil (splitParas_ne_nil rest)
  | case4 c rest hne p ps hcons ih =>
    obtain ⟨d, hd, hw⟩ := h
    rcases List.mem_cons.1 hd with hd | hd
    · refine ⟨c :: p, ?_, ⟨c, List.mem_cons_self c p, hd ▸ hw⟩⟩
      rw [splitParas.eq_3 c rest hne, hcons]; simp
    · obtain ⟨q, hq, hcq⟩ := ih ⟨d, hd, hw⟩
      rw [hcons] at hq
      rcases List.mem_cons.1 hq with hq | hq
      · refine ⟨c :: p, ?_, ?_⟩
        · rw [splitParas.eq_3 c rest hne, hcons]; simp
        · obtain ⟨e, he, hew⟩ := hcq
          exact ⟨e, List.mem_cons_of_mem _ (hq ▸ he), hew⟩
      · refine ⟨q, ?_, hcq⟩
        rw [splitParas.eq_3 c rest hne, hcons]
        exact List.mem_cons_of_mem _ hq

/-- A loop state is alive when it has already emitted a chunk or its
accumulator still holds non-whitespace text: such a state is guaranteed to
contribute at least one chunk to the final output. -/
def stateAlive (st : ChunkState) : Prop := st.chunks ≠ [] ∨ hasContent st.current

lemma simpleStep_alive {cs : Nat} {st : ChunkState} {p : List Char}
    (h : stateAlive st) : stateAlive (simpleStep cs st p) := by
  unfold simpleStep
  split
  · rcases h with h | h
    · exact Or.inl h
    · exact Or.inr (hasContent_append_left (hasContent_append_left h))
  · split
    · exact Or.inl (by simp)
    · next hstrip =>
      rcases h with h | h
      · exact Or.inl h
      · exact absurd ((pyStrip_ne_nil_iff _).2 h) hstrip

lemma simpleStep_alive_of_content {cs : Nat} {st : ChunkState} {p : List Char}
    (hcp : hasContent p) : stateAlive (simpleStep cs st p) := by
  unfold simpleStep
  split
  · exact Or.inr (hasContent_append_left (hasContent_append_right hcp))
  · split
    · exact Or.inl (by simp)
    · exact Or.inr (hasContent_append_left hcp)

lemma foldl_simpleStep_alive (cs : Nat) (ps : List (List Char)) (st : ChunkState)
    (h : stateAlive st) : stateAlive (ps.foldl (simpleStep cs) st) := by
  induction ps generalizing st with
  | nil => exact h
  | cons q qs ih => exact ih _ (simpleStep_alive h)

lemma foldl_simpleStep_alive_of_mem (cs : Nat) (ps : List (List Char)) (st : ChunkState)
    {p : List Char} (hp : p ∈ ps) (hcp : hasContent p) :
    stateAlive (ps.foldl (simpleStep cs) st) := by
  induction ps generalizing st with
  | nil => simp at hp
  | cons q qs ih =>
    rcases List.mem_cons.1 hp with rfl | hp
    · exact foldl_simpleStep_alive cs qs _ (simpleStep_alive_of_content hcp)
    · exact ih _ hp

lemma simpleStep_content_ne_nil {cs : Nat} {st : ChunkState} {p : List Char}
    (h : ∀ ch ∈ st.chunks, ch.content ≠ []) :
    ∀ ch ∈ (simpleStep cs st p).chunks, ch.content ≠ [] := by
  unfold simpleStep
  split
  · exact h
  · split
    · next hstrip =>
      intro ch hch
      rcases List.mem_append.1 hch with hch | hch
      · exact h ch hch
      · simp only [List.mem_singleton] at hch
        subst hch
        exact hstrip
    · exact h

lemma foldl_simpleStep_content_ne_nil (cs : Nat) (ps : List (List Char)) (st : ChunkState)
    (h : ∀ ch ∈ st.chunks, ch.content ≠ []) :
    ∀ ch ∈ (ps.foldl (simpleStep cs) st).chunks, ch.content ≠ [] := by
  induction ps generalizing st with
  | nil => exact h
  | cons q qs ih => exact ih _ (simpleStep_content_ne_nil h)

lemma finalizeChunks_ne_nil {st : ChunkState} (h : stateAlive st) :
    finalizeChunks st ≠ [] := by
  unfold finalizeChunks
  split
  · simp
  · next hstrip =>
    rcases h with h | h
    · exact h
    · exact absurd ((pyStrip_ne_nil_iff _).2 h) hstrip

lemma finalizeChunks_content_ne_nil {st : ChunkState}
    (h : ∀ ch ∈ st.chunks, ch.content ≠ []) :
    ∀ ch ∈ finalizeChunks st, ch.content ≠ [] := by
  unfold finalizeChunks
  split
  · next hstrip =>
    intro ch hch
    rcases List.mem_append.1 hch with hch | hch
    · exact h ch hch
    · simp only [List.mem_singleton] at hch
      subst hch
      exact hstrip
  · exact h

/-- C9 counterexample: the single-space text is non-empty, yet the fallback
chunker emits no chunk at all for it (every accumulated chunk is dropped by
the `strip()` guards), so "produces at least one chunk for every non-empty
input" fails as stated. -/
theorem simple_chunk_text_whitespace_counterexample :
    ([' '] : List Char) ≠ [] ∧ simple_chunk_text 1000 [' '] = [] := by decide

/-- C9 (amended): for every chunk size and every input text containing at
least one non-whitespace character, `_simple_chunk_text` (a total function:
termination is by construction) produces at least one chunk, and no chunk it
emits has empty content — a whitespace-only remainder is dropped, never
emitted. -/
theorem simple_chunk_text_nonempty_and_no_empty_chunks (chunkSize : Nat)
    (text : List Char) (h : hasContent text) :
    simple_chunk_text chunkSize text ≠ [] ∧
    ∀ ch ∈ simple_chunk_text chunkSize text, ch.content ≠ [] := by
  constructor
  · obtain ⟨p, hp, hcp⟩ := splitParas_hasContent h
    exact finalizeChunks_ne_nil
      (foldl_simpleStep_alive_of_mem chunkSize (splitParas text) ⟨[], 0, []⟩ hp hcp)
  · exact finalizeChunks_content_ne_nil
      (foldl_simpleStep_content_ne_nil chunkSize (splitParas text) ⟨[], 0, []⟩ (by simp))

/-- Witness for the amended C9 theorem at the concrete input "hi". -/
theorem simple_chunk_text_nonempty_witness :
    hasContent ['h', 'i'] ∧
    (simple_chunk_text 1000 ['h', 'i'] ≠ [] ∧
     ∀ ch ∈ simple_chunk_text 1000 ['h', 'i'], ch.content ≠ []) :=
  ⟨by decide, simple_chunk_text_nonempty_and_no_empty_chunks 1000 ['h', 'i'] (by decide)⟩

/-! ## Vector store (`vector_store.py`, class `VectorStore`)

The ChromaDB collection is modelled as a list of entries; the OpenAI
embedding backend as a function returning `none` when the API call raises;
the backend distance computation as an explicit function parameter. -/

/-- One chunk as passed to `index_document`: `{'id': …, 'content': …,
'metadata': {'chunk_size': …, …}}`. -/
structure ChunkInput where
  id : Nat
  content : String
  chunk_size : Nat
deriving DecidableEq, Repr

/-- The document-level `metadata` dict passed to `index_document`
(`metadata.get(key, '')` always yields these fields, `''` when absent). -/
structure DocMetadata where
  filename : String
  file_type : String
  title : String
deriving DecidableEq, Repr

/-- The per-chunk metadata dict built by `index_document`. -/
structure ChunkMeta where
  document_id : Nat
  chunk_id : Nat
  chunk_size : Nat
  filename : String
  file_type : String
  title : String
  total_chunks : Nat
  indexed_at : String
deriving DecidableEq, Repr

/-- One stored ChromaDB record: id, document text, metadata, embedding. -/
structure Entry where
  key : String
  document : String
  meta : ChunkMeta
  embedding : List Rat
deriving DecidableEq, Repr

/-- The ChromaDB collection contents. -/
abbrev Collection := List Entry

/-- The OpenAI embedding backend (`generate_embeddings`): one vector per
input text; `none` models the API call raising. -/
abbrev Embedder := List String → Option (List (List Rat))

/-- The backend's vector distance function. -/
abbrev DistFn := List Rat → List Rat → Rat

/-- A value of a metadata field, for equality filters (`where` clauses). -/
inductive MetaValue
  | nat (v : Nat)
  | str (v : String)
deriving DecidableEq, Repr

/-- Field lookup on the chunk metadata dict. -/
def ChunkMeta.lookupField (m : ChunkMeta) : String → Option MetaValue
  | "document_id" => some (.nat m.document_id)
  | "chunk_id" => some (.nat m.chunk_id)
  | "chunk_size" => some (.nat m.chunk_size)
  | "filename" => some (.str m.filename)
  | "file_type" => some (.str m.file_type)
  | "title" => some (.str m.title)
  | "total_chunks" => some (.nat m.total_chunks)
  | "indexed_at" => some (.str m.indexed_at)
  | _ => none

/-- A ChromaDB `where` clause: a conjunction of field-equality constraints. -/
abbrev MetaFilter := List (String × MetaValue)

/-- Whether metadata satisfies every equality constraint of the filter. -/
def matchesFilter (f : MetaFilter) (m : ChunkMeta) : Bool :=
  f.all fun kv => m.lookupField kv.1 == some kv.2

/-- The stable per-chunk key `doc_{document_id}_chunk_{chunk_id}`. -/
def chunkKey (document_id chunk_id : Nat) : String :=
  "doc_" ++ toString document_id ++ "_chunk_" ++ toString chunk_id

/-- The ChromaDB record built by `index_document` for one (chunk, embedding)
pair: key `doc_{document_id}_chunk_{id}`, the chunk text, the enhanced
per-chunk metadata, and the embedding. -/
def mkEntry (document_id : Nat) (metadata : DocMetadata) (now : String)
    (total : Nat) (ce : ChunkInput × List Rat) : Entry :=
  { key := chunkKey document_id ce.1.id
    document := ce.1.content
    meta := { document_id := document_id
              chunk_id := ce.1.id
              chunk_size := ce.1.chunk_size
              filename := metadata.filename
              file_type := metadata.file_type
              title := metadata.title
              total_chunks := total
              indexed_at := now }
    embedding := ce.2 }

/-- `VectorStore.index_document`: returns `False` and leaves the collection
unchanged when `chunks` is empty or the embedding call raises (or the
backend `add` rejects mismatched parallel arrays); otherwise adds one entry
per chunk and returns `True`. `now` models `datetime.utcnow().isoformat()`. -/
def index_document (embed : Embedder) (now : String) (col : Collection)
    (document_id : Nat) (chunks : List ChunkInput) (metadata : DocMetadata) :
    Bool × Collection :=
  if chunks = [] then (false, col)
  else
    match embed (chunks.map (·.content)) with
    | none => (false, col)
    | some embeddings =>
      if embeddings.length = chunks.length then
        (true, col ++ (chunks.zip embeddings).map (mkEntry document_id metadata now chunks.length))
      else (false, col)

/-- A raw backend hit: (document text, metadata, distance). -/
structure BackendHit where
  document : String
  meta : ChunkMeta
  distance : Rat
deriving DecidableEq, Repr

/-- Ordering of backend hits by ascending distance. -/
def hitLE (a b : BackendHit) : Prop := a.distance ≤ b.distance

instance : DecidableRel hitLE := fun a b =>
  inferInstanceAs (Decidable (a.distance ≤ b.distance))

instance : IsTotal BackendHit hitLE := ⟨fun a b => le_total a.distance b.distance⟩

instance : IsTrans BackendHit hitLE := ⟨fun _ _ _ => le_trans⟩

/-- Model of the ChromaDB backend query (`collection.query`): the candidates
matching the `where` clause, ordered by ascending distance to the query
embedding, truncated to `n_results`. The ascending-distance order is
ChromaDB's documented nearest-neighbor contract (spec section 4.2). -/
def chromaQuery (dist : DistFn) (col : Collection) (qEmb : List Rat)
    (n_results : Nat) (whereClause : Option MetaFilter) : List BackendHit :=
  let cands := match whereClause with
    | none => col
    | some f => col.filter fun e => matchesFilter f e.meta
  let hits := cands.map fun e => ⟨e.document, e.meta, dist qEmb e.embedding⟩
  (List.insertionSort hitLE hits).take n_results

/-- One formatted search result of `search_similar`. -/
structure SearchResult where
  rank : Nat
  content : String
  metadata : ChunkMeta
  similarity_score : Rat
  distance : Rat
deriving DecidableEq, Repr

/-- The result-formatting loop of `search_similar`
(`for i, (doc, metadata, distance) in enumerate(zip(...))`): rank `i + 1`
and `similarity_score = 1 - distance`, in backend order. -/
def formatResults (i : Nat) : List BackendHit → List SearchResult
  | [] => []
  | h :: rest =>
    { rank := i + 1, content := h.document, metadata := h.meta,
      similarity_score := 1 - h.distance, distance := h.distance } ::
      formatResults (i + 1) rest

/-- `VectorStore.search_similar`: embed the query, run the backend query
with the optional metadata filter, format the hits. Any backend failure
(embedding call raising, or no embedding returned for the query) is caught
and yields `[]`. -/
def search_similar (embed : Embedder) (dist : DistFn) (col : Collection)
    (query : String) (n_results : Nat) (filter_metadata : Option MetaFilter) :
    List SearchResult :=
  match embed [query] with
  | some (qEmb :: _) => formatResults 0 (chromaQuery dist col qEmb n_results filter_metadata)
  | _ => []

/-- A chunk as returned by `get_document_chunks`. -/
structure StoredChunk where
  chunk_id : Nat
  content : String
  metadata : ChunkMeta
deriving DecidableEq, Repr

/-- Ordering of stored chunks by ascending `chunk_id`
(`chunks.sort(key=lambda x: x['chunk_id'])`; `insertionSort` is stable, as
Python's sort is). -/
def chunkIdLE (a b : StoredChunk) : Prop := a.chunk_id ≤ b.chunk_id

instance : DecidableRel chunkIdLE := fun a b =>
  inferInstanceAs (Decidable (a.chunk_id ≤ b.chunk_id))

instance : IsTotal StoredChunk chunkIdLE := ⟨fun a b => Nat.le_total a.chunk_id b.chunk_id⟩

instance : IsTrans StoredChunk chunkIdLE := ⟨fun _ _ _ => Nat.le_trans⟩

/-- `VectorStore.get_document_chunks`: all stored entries whose metadata
`document_id` matches, sorted ascending by `chunk_id`. -/
def get_document_chunks (col : Collection) (document_id : Nat) : List StoredChunk :=
  List.insertionSort chunkIdLE
    ((col.filter fun e => e.meta.document_id == document_id).map
      fun e => ⟨e.meta.chunk_id, e.document, e.meta⟩)

/-- `VectorStore.delete_document`: look up the ids of all entries whose
metadata `document_id` matches; if none, return `False` (no-op), otherwise
delete those ids and return `True`. -/
def delete_document (col : Collection) (document_id : Nat) : Bool × Collection :=
  let ids := (col.filter fun e => e.meta.document_id == document_id).map (·.key)
  if ids = [] then (false, col)
  else (true, col.filter fun e => !ids.contains e.key)

/-! ### Vector store proofs -/

/-- After `delete_document`, no entry with the deleted `document_id` remains. -/
lemma delete_document_filter (col : Collection) (d : Nat) :
    ((delete_document col d).2.filter fun e => e.meta.document_id == d) = [] := by
  simp only [delete_document]
  split
  · next hnil =>
    simpa using List.map_eq_nil_iff.1 hnil
  · next hnnil =>
    refine List.filter_eq_nil_iff.2 ?_
    intro e he hmatch
    obtain ⟨hecol, hkey⟩ := List.mem_filter.1 he
    have hmem : e.key ∈ (col.filter fun g => g.meta.document_id == d).map (·.key) :=
      List.mem_map_of_mem _ (List.mem_filter.2 ⟨hecol, hmatch⟩)
    rw [Bool.not_eq_true'] at hkey
    exact absurd (List.elem_eq_true_of_mem hmem) (by simp [List.contains] at hkey ⊢; exact hkey)

/-- C8: deleting a document's vector entries twice is idempotent in effect:
the second call is a no-op returning `False`, neither call can fail (both
are total functions by construction), and `get_document_chunks` is empty
afterward. -/
theorem delete_document_twice_idempotent (col : Collection) (d : Nat) :
    (delete_document (delete_document col d).2 d).1 = false ∧
    (delete_document (delete_document col d).2 d).2 = (delete_document col d).2 ∧
    get_document_chunks (delete_document (delete_document col d).2 d).2 d = [] := by
  have hf := delete_document_filter col d
  generalize hs : (delete_document col d).2 = s1 at hf ⊢
  have h1 : (delete_document s1 d).1 = false := by simp [delete_document, hf]
  have h2 : (delete_document s1 d).2 = s1 := by simp [delete_document, hf]
  refine ⟨h1, h2, ?_⟩
  rw [h2]
  simp [get_document_chunks, hf]

lemma formatResults_sim (i : Nat) (l : List BackendHit) :
    ∀ r ∈ formatResults i l, r.similarity_score = 1 - r.distance := by
  induction l generalizing i with
  | nil => simp [formatResults]
  | cons h rest ih =>
    intro r hr
    simp only [formatResults, List.mem_cons] at hr
    rcases hr with rfl | hr
    · rfl
    · exact ih (i + 1) r hr

lemma formatResults_length (i : Nat) (l : List BackendHit) :
    (formatResults i l).length = l.length := by
  induction l generalizing i with
  | nil => simp [formatResults]
  | cons h rest ih => simp [formatResults, ih]

lemma formatResults_rank (i : Nat) (l : List BackendHit) :
    (formatResults i l).map (·.rank) = List.range' (i + 1) l.length := by
  induction l generalizing i with
  | nil => simp [formatResults]
  | cons h rest ih => simp [formatResults, ih, List.range'_succ]

lemma formatResults_map_distance (i : Nat) (l : List BackendHit) :
    (formatResults i l).map (·.distance) = l.map (·.distance) := by
  induction l generalizing i with
  | nil => simp [formatResults]
  | cons h rest ih => simp [formatResults, ih]

lemma formatResults_map_sim (i : Nat) (l : List BackendHit) :
    (formatResults i l).map (·.similarity_score) = l.map (fun h => 1 - h.distance) := by
  induction l generalizing i with
  | nil => simp [formatResults]
  | cons h rest ih => simp [formatResults, ih]

lemma chromaQuery_sorted (dist : DistFn) (col : Collection) (qEmb : List Rat)
    (n : Nat) (filt : Option MetaFilter) :
    List.Pairwise hitLE (chromaQuery dist col qEmb n filt) := by
  unfold chromaQuery
  exact List.Pairwise.sublist (List.take_sublist _ _) (List.sorted_insertionSort hitLE _)

/-- C6: `search_similar` returns each result with
`similarity_score = 1 - distance`, ranks the results `1, 2, 3, …` in
order, and the sequence is ordered by ascending distance (equivalently,
descending similarity). -/
theorem search_similar_scores_and_order (embed : Embedder) (dist : DistFn)
    (col : Collection) (query : String) (n : Nat) (filt : Option MetaFilter) :
    (search_similar embed dist col query n filt).map (·.similarity_score) =
      (search_similar embed dist col query n filt).map (fun r => 1 - r.distance) ∧
    (search_similar embed dist col query n filt).map (·.rank) =
      List.range' 1 (search_similar embed dist col query n filt).length ∧
    List.Chain' (fun a b => a.distance ≤ b.distance)
      (search_similar embed dist col query n filt) ∧
    List.Chain' (fun a b => b.similarity_score ≤ a.similarity_score)
      (search_similar embed dist col query n filt) := by
  unfold search_similar
  cases hq : embed [query] with
  | none => simp
  | some l =>
    cases l with
    | nil => simp
    | cons qEmb rest =>
      simp only
      have hsorted := chromaQuery_sorted dist col qEmb n filt
      refine ⟨?_, ?_, ?_, ?_⟩
      · -- similarity = 1 - distance, stated pointwise over the output list
        have hmap := formatResults_map_sim 0 (chromaQuery dist col qEmb n filt)
        have hmap2 := formatResults_map_distance 0 (chromaQuery dist col qEmb n filt)
        rw [hmap]
        have : (formatResults 0 (chromaQuery dist col qEmb n filt)).map
            (fun r => 1 - r.distance) =
            ((formatResults 0 (chromaQuery dist col qEmb n filt)).map (·.distance)).map
              (fun d => 1 - d) := by
          rw [List.map_map]; rfl
        rw [this, hmap2, List.map_map]
        rfl
      · rw [formatResults_rank, formatResults_length]
      · have hc : List.Chain' (fun a b : BackendHit => a.distance ≤ b.distance)
            (chromaQuery dist col qEmb n filt) := hsorted.chain'
        have hd : List.Chain' (fun a b : Rat => a ≤ b)
            ((formatResults 0 (chromaQuery dist col qEmb n filt)).map (·.distance)) := by
          rw [formatResults_map_distance]
          exact (List.chain'_map _).2 hc
        exact (List.chain'_map _).1 hd
      · have hc : List.Chain' (fun a b : BackendHit => 1 - b.distance ≤ 1 - a.distance)
            (chromaQuery dist col qEmb n filt) :=
          (hsorted.imp fun hab => by
            simpa using sub_le_sub_left hab 1).chain'
        have hs : List.Chain' (fun a b : Rat => b ≤ a)
            ((formatResults 0 (chromaQuery dist col qEmb n filt)).map
              (·.similarity_score)) := by
          rw [formatResults_map_sim]
          exact (List.chain'_map _).2 hc
        exact (List.chain'_map _).1 hs

/-- C5: indexing a non-empty chunk list under a fresh `document_id`, with the
embedding backend succeeding, then reading the chunks back: `index_document`
reports success and `get_document_chunks` returns exactly as many chunks as
were indexed, sorted ascending by `chunk_id`, whose `(chunk_id, content)`
pairs are exactly the `(id, content)` pairs that were indexed. -/
theorem index_document_roundtrip (embed : Embedder) (now : String)
    (col : Collection) (document_id : Nat) (chunks : List ChunkInput)
    (metadata : DocMetadata) (embs : List (List Rat))
    (hne : chunks ≠ [])
    (hemb : embed (chunks.map (·.content)) = some embs)
    (hlen : embs.length = chunks.length)
    (hfresh : ∀ e ∈ col, e.meta.document_id ≠ document_id) :
    (index_document embed now col document_id chunks metadata).1 = true ∧
    (get_document_chunks (index_document embed now col document_id chunks metadata).2
      document_id).length = chunks.length ∧
    List.Sorted chunkIdLE
      (get_document_chunks (index_document embed now col document_id chunks metadata).2
        document_id) ∧
    List.Perm
      ((get_document_chunks (index_document embed now col document_id chunks metadata).2
        document_id).map fun c => (c.chunk_id, c.content))
      (chunks.map fun c => (c.id, c.content)) := by
  have hstep : index_document embed now col document_id chunks metadata =
      (true, col ++ (chunks.zip embs).map (mkEntry document_id metadata now chunks.length)) := by
    simp [index_document, hemb, hne, hlen]
  rw [hstep]
  have hfcol : (col.filter fun e => e.meta.document_id == document_id) = [] :=
    List.filter_eq_nil_iff.2 fun e he => by simpa using hfresh e he
  have hfnew : (((chunks.zip embs).map (mkEntry document_id metadata now chunks.length)).filter
      fun e => e.meta.document_id == document_id) =
      (chunks.zip embs).map (mkEntry document_id metadata now chunks.length) :=
    List.filter_eq_self.2 fun e he => by
      obtain ⟨ce, _, rfl⟩ := List.mem_map.1 he
      simp [mkEntry]
  have hchunks : get_document_chunks
      (col ++ (chunks.zip embs).map (mkEntry document_id metadata now chunks.length))
      document_id =
      List.insertionSort chunkIdLE ((chunks.zip embs).map
        fun ce => ⟨ce.1.id, ce.1.content,
          (mkEntry document_id metadata now chunks.length ce).meta⟩) := by
    unfold get_document_chunks
    rw [List.filter_append, hfcol, hfnew, List.nil_append, List.map_map]
    rfl
  rw [hchunks]
  have hperm : List.Perm
      (List.insertionSort chunkIdLE ((chunks.zip embs).map
        fun ce => (⟨ce.1.id, ce.1.content,
          (mkEntry document_id metadata now chunks.length ce).meta⟩ : StoredChunk)))
      ((chunks.zip embs).map fun ce => (⟨ce.1.id, ce.1.content,
        (mkEntry document_id metadata now chunks.length ce).meta⟩ : StoredChunk)) :=
    List.perm_insertionSort _ _
  refine ⟨rfl, ?_, List.sorted_insertionSort chunkIdLE _, ?_⟩
  · rw [hperm.length_eq, List.length_map, List.length_zip, hlen, Nat.min_self]
  · have hpairs : ((chunks.zip embs).map fun ce => (⟨ce.1.id, ce.1.content,
        (mkEntry document_id metadata now chunks.length ce).meta⟩ : StoredChunk)).map
        (fun c => (c.chunk_id, c.content)) =
        chunks.map fun c => (c.id, c.content) := by
      rw [List.map_map]
      have hfst : (chunks.zip embs).map Prod.fst = chunks :=
        List.map_fst_zip chunks embs (le_of_eq hlen.symm)
      calc ((chunks.zip embs).map
            ((fun c : StoredChunk => (c.chunk_id, c.content)) ∘
              fun ce => (⟨ce.1.id, ce.1.content,
                (mkEntry document_id metadata now chunks.length ce).meta⟩ : StoredChunk))) =
          ((chunks.zip embs).map Prod.fst).map (fun c => (c.id, c.content)) := by
            rw [List.map_map]; rfl
        _ = chunks.map fun c => (c.id, c.content) := by rw [hfst]
    exact hpairs ▸ hperm.map fun c => (c.chunk_id, c.content)

/-- Witness for the C5 round-trip theorem: two chunks indexed into an empty
collection, with an embedding backend that assigns the zero vector. -/
theorem index_document_roundtrip_witness :
    (index_document (fun ts => some (ts.map fun _ => [(0 : Rat)])) "t0" []
        7 [⟨0, "alpha", 5⟩, ⟨1, "beta", 4⟩] ⟨"f.txt", ".txt", "T"⟩).1 = true ∧
    (get_document_chunks
        (index_document (fun ts => some (ts.map fun _ => [(0 : Rat)])) "t0" []
          7 [⟨0, "alpha", 5⟩, ⟨1, "beta", 4⟩] ⟨"f.txt", ".txt", "T"⟩).2 7).length = 2 := by
  have h := index_document_roundtrip (fun ts => some (ts.map fun _ => [(0 : Rat)])) "t0" []
    7 [⟨0, "alpha", 5⟩, ⟨1, "beta", 4⟩] ⟨"f.txt", ".txt", "T"⟩
    [[(0 : Rat)], [(0 : Rat)]] (by decide) rfl rfl (by simp)
  exact ⟨h.1, h.2.1⟩

/-! ## LLM service (`llm_service.py`, class `LLMService`)

The OpenAI chat-completions backend is an explicit parameter: the blocking
call returns `Except` (an `.error` models the API raising, carrying
`str(e)`), the streaming call returns the stream's delta contents plus an
optional failure that interrupts it. -/

/-- Token usage reported by the completions API. -/
structure LLMUsage where
  prompt_tokens : Nat
  completion_tokens : Nat
  total_tokens : Nat
deriving DecidableEq, Repr

/-- A blocking completions response: content plus usage. -/
structure LLMOut where
  content : String
  usage : LLMUsage
deriving DecidableEq, Repr

/-- The blocking generation backend: system prompt, user message,
temperature, max_tokens. -/
abbrev LLMFn := String → String → Rat → Nat → Except String LLMOut

/-- A model token stream: the `delta.content` of each received chunk
(`none` models a chunk with no content), and `failure = some msg` models the
stream raising after those chunks were delivered (`⟨[], some msg⟩` is a
failure before the first chunk). -/
structure ModelStream where
  items : List (Option String)
  failure : Option String
deriving DecidableEq, Repr

/-- The streaming generation backend. -/
abbrev LLMStreamFn := String → String → Rat → Nat → ModelStream

/-- `self.model = "gpt-4-turbo-preview"`. -/
def llmModel : String := "gpt-4-turbo-preview"

/-- `self.default_system_prompt.format(context=…, question=…)`: the default
RAG system prompt with the context block and question substituted. -/
def default_system_prompt (context question : String) : String :=
  "You are Doc Query, an intelligent document assistant. Your role is to help users find and understand information from their uploaded documents.\n\nKey Guidelines:\n1. Always base your responses on the provided document context\n2. If the context doesn't contain relevant information, say so clearly\n3. Provide accurate, helpful, and concise answers\n4. Cite specific parts of documents when possible\n5. If asked about something not in the documents, politely redirect to the document content\n6. Use a friendly, professional tone\n7. Structure responses clearly with proper formatting\n\nDocument Context: "
    ++ context ++ "\n\nUser Question: " ++ question

/-- `system_prompt or self.default_system_prompt.format(...)`: Python `or`
falls back to the default when the caller's prompt is `None` or empty. -/
def final_system_prompt (system_prompt : Option String) (context_text query : String) :
    String :=
  match system_prompt with
  | some sp => if sp = "" then default_system_prompt context_text query else sp
  | none => default_system_prompt context_text query

/-- Three-digit zero-padding for the fractional part of `%.3f`. -/
def pad3 (n : Nat) : String :=
  if n < 10 then "00" ++ toString n
  else if n < 100 then "0" ++ toString n
  else toString n

/-- Rendering of a rational to three decimal places, modelling the Python
format spec `{similarity:.3f}` (rounding of exact rationals stands in for
binary-float rounding). -/
def formatFixed3 (q : Rat) : String :=
  (if q < 0 then "-" else "") ++
    toString ((round (|q| * 1000) : ℤ).toNat / 1000) ++ "." ++
    pad3 ((round (|q| * 1000) : ℤ).toNat % 1000)

/-- The body of `_prepare_context`'s `for i, chunk in
enumerate(context_chunks, 1)` loop: one formatted block per chunk. -/
def contextParts (i : Nat) : List SearchResult → List String
  | [] => []
  | chunk :: rest =>
    ("Document " ++ toString i ++ ": " ++ chunk.metadata.filename
      ++ "\nRelevance Score: " ++ formatFixed3 chunk.similarity_score
      ++ "\nContent: " ++ chunk.content ++ "\n\n---") :: contextParts (i + 1) rest

/-- `LLMService._prepare_context`: format each ranked chunk as
`Document {i}: {filename} / Relevance Score: {sim:.3f} / Content: {content}`
blocks joined by newlines; `""` for no chunks. -/
def prepare_context (context_chunks : List SearchResult) : String :=
  if context_chunks = [] then ""
  else String.intercalate "\n" (contextParts 1 context_chunks)

/-- A citation built by `_prepare_citations`. A search-result dict has no
`'id'` key, so `chunk.get('id', 'unknown')` always yields `'unknown'`; chunk
metadata has no `page_number`, `chunk_index`, `start_position` or
`end_position` keys, so those `get`s yield `None` / the loop index. -/
structure Citation where
  id : String
  document_id : Nat
  filename : String
  content : String
  page_number : Option Nat
  chunk_index : Nat
  similarity_score : Rat
  start_position : Option Nat
  end_position : Option Nat
deriving DecidableEq, Repr

/-- The body of `_prepare_citations`'s `for i, chunk in
enumerate(context_chunks)` loop. -/
def citationParts (i : Nat) : List SearchResult → List Citation
  | [] => []
  | chunk :: rest =>
    { id := "citation_" ++ toString i ++ "_unknown"
      document_id := chunk.metadata.document_id
      filename := chunk.metadata.filename
      content := chunk.content
      page_number := none
      chunk_index := i
      similarity_score := chunk.similarity_score
      start_position := none
      end_position := none } :: citationParts (i + 1) rest

/-- `LLMService._prepare_citations`: one citation per retrieved chunk, in
retrieval-rank order. -/
def prepare_citations (context_chunks : List SearchResult) : List Citation :=
  citationParts 0 context_chunks

/-- The `metadata` dict of a RAG response. The source builds different key
sets on different paths, so every field is optional (`none` = key absent). -/
structure RagMetadata where
  chunks_retrieved : Option Nat := none
  total_tokens : Option Nat := none
  prompt_tokens : Option Nat := none
  completion_tokens : Option Nat := none
  model_used : Option String := none
  temperature : Option Rat := none
  error : Option String := none
deriving DecidableEq, Repr

/-- The result dict of `generate_rag_response`. The exception path builds a
dict without a `'citations'` key, so `citations` is optional. -/
structure RagResult where
  success : Bool
  response : String
  context_used : List SearchResult
  citations : Option (List Citation)
  metadata : RagMetadata
deriving DecidableEq, Repr

/-- The canned response of the empty-retrieval path. -/
def noInfoResponse : String :=
  "I couldn't find any relevant information in your documents to answer this question. Please try rephrasing your query or upload relevant documents."

/-- `LLMService.generate_rag_response`. Faithful to the source: the
retrieval call passes only `query` and `n_results` to `search_similar` —
no metadata filter, and the method has no tenant parameter at all. An empty
retrieval short-circuits with the canned response (`success: False`); a
completions exception is caught into an error result. -/
def generate_rag_response (embed : Embedder) (dist : DistFn) (llm : LLMFn)
    (col : Collection) (query : String) (n_context_chunks : Nat)
    (system_prompt : Option String) (temperature : Rat) (max_tokens : Nat) :
    RagResult :=
  match search_similar embed dist col query n_context_chunks none with
  | [] =>
    { success := false
      response := noInfoResponse
      context_used := []
      citations := some []
      metadata := { chunks_retrieved := some 0, total_tokens := some 0,
                    model_used := some llmModel } }
  | ch :: chs =>
    match llm (final_system_prompt system_prompt (prepare_context (ch :: chs)) query)
        query temperature max_tokens with
    | .error e =>
      { success := false
        response := "Sorry, I encountered an error while processing your request: " ++ e
        context_used := []
        citations := none
        metadata := { error := some e } }
    | .ok out =>
      { success := true
        response := out.content
        context_used := ch :: chs
        citations := some (prepare_citations (ch :: chs))
        metadata := { chunks_retrieved := some (ch :: chs).length
                      total_tokens := some out.usage.total_tokens
                      prompt_tokens := some out.usage.prompt_tokens
                      completion_tokens := some out.usage.completion_tokens
                      model_used := some llmModel
                      temperature := some temperature } }

/-- One server-sent event of the streaming RAG path. Constant metadata
fields (`model_used`, `temperature`) are elided. -/
inductive StreamEvent
  | content (text : String) (chunks_retrieved : Nat)
  | complete (text : String) (context_used : List SearchResult)
      (citations : List Citation) (chunks_retrieved : Nat) (total_length : Nat)
  | error (text : String)
deriving DecidableEq, Repr

/-- Whether an event is terminal (`complete` or `error`). -/
def StreamEvent.isTerminal : StreamEvent → Bool
  | .content _ _ => false
  | _ => true

/-- Concatenation of a list of strings in order. -/
def joinTexts (l : List String) : String := l.foldr (fun a b => a ++ b) ""

/-- The `content` fields of the `content` events of a sequence. -/
def contentTexts (evs : List StreamEvent) : List String :=
  evs.filterMap fun e =>
    match e with
    | .content s _ => some s
    | _ => none

/-- The `async for chunk in stream` loop of
`generate_streaming_rag_response`: each chunk with truthy `delta.content`
(neither `None` nor `""`) is forwarded as a `content` event and appended to
`full_response`; returns (events, accumulated full response). -/
def streamLoop (n : Nat) : List (Option String) → List StreamEvent × String
  | [] => ([], "")
  | none :: rest => streamLoop n rest
  | some s :: rest =>
    if s = "" then streamLoop n rest
    else (StreamEvent.content s n :: (streamLoop n rest).1, s ++ (streamLoop n rest).2)

/-- The canned streaming empty-retrieval message. -/
def noInfoStreamResponse : String :=
  "I couldn't find any relevant information in your documents to answer this question."

/-- `LLMService.generate_streaming_rag_response`, yielding the full event
sequence. Faithful to the source: retrieval passes no filter; empty
retrieval yields a single terminal `error` event; otherwise the model stream
is forwarded chunk by chunk and, if the stream raised (after any number of
delivered chunks — already-emitted events are not retracted), one terminal
`error` event is emitted, else one terminal `complete` event carrying the
accumulated full response, context, and citations. -/
def generate_streaming_rag_response (embed : Embedder) (dist : DistFn)
    (llmStream : LLMStreamFn) (col : Collection) (query : String)
    (n_context_chunks : Nat) (system_prompt : Option String) (temperature : Rat)
    (max_tokens : Nat) : List StreamEvent :=
  match search_similar embed dist col query n_context_chunks none with
  | [] => [.error noInfoStreamResponse]
  | ch :: chs =>
    match llmStream
        (final_system_prompt system_prompt (prepare_context (ch :: chs)) query)
        query temperature max_tokens with
    | ⟨items, some e⟩ =>
      (streamLoop (ch :: chs).length items).1 ++
        [.error ("Sorry, I encountered an error: " ++ e)]
    | ⟨items, none⟩ =>
      (streamLoop (ch :: chs).length items).1 ++
        [.complete (streamLoop (ch :: chs).length items).2 (ch :: chs)
          (prepare_citations (ch :: chs)) (ch :: chs).length
          (streamLoop (ch :: chs).length items).2.length]

/-! ### LLM service proofs -/

/-- C7: when retrieval returns zero chunks, the blocking RAG path returns
(never raises: the embedding is a total function) exactly the canned
"no relevant information" result: `success: False`, empty `context_used`,
empty `citations`, `chunks_retrieved: 0`. -/
theorem generate_rag_response_empty_retrieval (embed : Embedder) (dist : DistFn)
    (llm : LLMFn) (col : Collection) (query : String) (n_context_chunks : Nat)
    (system_prompt : Option String) (temperature : Rat) (max_tokens : Nat)
    (h : search_similar embed dist col query n_context_chunks none = []) :
    generate_rag_response embed dist llm col query n_context_chunks system_prompt
        temperature max_tokens =
      { success := false
        response := noInfoResponse
        context_used := []
        citations := some []
        metadata := { chunks_retrieved := some 0, total_tokens := some 0,
                      model_used := some llmModel } } := by
  unfold generate_rag_response
  rw [h]

/-- A tenant-free embedding backend assigning every text the zero vector,
for concrete evaluations. -/
def embedZero : Embedder := fun ts => some (ts.map fun _ => [(0 : Rat)])

/-- A constant distance function, for concrete evaluations. -/
def distZero : DistFn := fun _ _ => 0

/-- Witness for C7 at a concrete input: empty collection, failing model. -/
theorem generate_rag_response_empty_retrieval_witness :
    search_similar embedZero distZero [] "q" 5 none = [] ∧
    (generate_rag_response embedZero distZero (fun _ _ _ _ => .error "down") []
        "q" 5 none (7 / 10) 1000).success = false := by
  refine ⟨rfl, ?_⟩
  rw [generate_rag_response_empty_retrieval embedZero distZero
    (fun _ _ _ _ => .error "down") [] "q" 5 none (7 / 10) 1000 rfl]

lemma streamLoop_fst_not_terminal (n : Nat) (items : List (Option String)) :
    ∀ e ∈ (streamLoop n items).1, e.isTerminal = false := by
  induction items with
  | nil => simp [streamLoop]
  | cons o rest ih =>
    cases o with
    | none => simpa [streamLoop] using ih
    | some s =>
      by_cases hs : s = ""
      · simpa [streamLoop, hs] using ih
      · intro e he
        simp only [streamLoop, if_neg hs, List.mem_cons] at he
        rcases he with rfl | he
        · rfl
        · exact ih e he

lemma streamLoop_snd_eq_join (n : Nat) (items : List (Option String)) :
    (streamLoop n items).2 = joinTexts (contentTexts (streamLoop n items).1) := by
  induction items with
  | nil => simp [streamLoop, contentTexts, joinTexts]
  | cons o rest ih =>
    cases o with
    | none => simpa [streamLoop] using ih
    | some s =>
      by_cases hs : s = ""
      · simpa [streamLoop, hs] using ih
      · simp [streamLoop, hs, contentTexts, ih, joinTexts]

/-- C3: for a streaming RAG query whose retrieval is non-empty and whose
model stream completes normally, the emitted event sequence has exactly one
terminal event, the terminal event is last, and it is a `complete` event
whose `content` is exactly the concatenation of the `content` fields of all
`content` events. -/
theorem streaming_terminal_guarantee (embed : Embedder) (dist : DistFn)
    (llmStream : LLMStreamFn) (col : Collection) (query : String)
    (n_context_chunks : Nat) (system_prompt : Option String) (temperature : Rat)
    (max_tokens : Nat)
    (hne : search_similar embed dist col query n_context_chunks none ≠ [])
    (hok : (llmStream (final_system_prompt system_prompt
        (prepare_context (search_similar embed dist col query n_context_chunks none))
        query) query temperature max_tokens).failure = none) :
    ((generate_streaming_rag_response embed dist llmStream col query n_context_chunks
        system_prompt temperature max_tokens).filter (·.isTerminal)).length = 1 ∧
    (∃ e, (generate_streaming_rag_response embed dist llmStream col query n_context_chunks
        system_prompt temperature max_tokens).getLast? = some e ∧ e.isTerminal = true) ∧
    (∃ cu cits k tl,
      (generate_streaming_rag_response embed dist llmStream col query n_context_chunks
          system_prompt temperature max_tokens).getLast? =
        some (.complete (joinTexts (contentTexts
          (generate_streaming_rag_response embed dist llmStream col query n_context_chunks
            system_prompt temperature max_tokens))) cu cits k tl)) := by
  cases hss : search_similar embed dist col query n_context_chunks none with
  | nil => exact absurd hss hne
  | cons ch chs =>
    rw [hss] at hok
    cases hm : llmStream (final_system_prompt system_prompt
        (prepare_context (ch :: chs)) query) query temperature max_tokens with
    | mk items fail =>
      rw [hm] at hok
      simp only at hok
      subst hok
      have hgen : generate_streaming_rag_response embed dist llmStream col query
          n_context_chunks system_prompt temperature max_tokens =
          (streamLoop (ch :: chs).length items).1 ++
            [.complete (streamLoop (ch :: chs).length items).2 (ch :: chs)
              (prepare_citations (ch :: chs)) (ch :: chs).length
              (streamLoop (ch :: chs).length items).2.length] := by
        unfold generate_streaming_rag_response
        rw [hss]
        dsimp only
        rw [hm]
      rw [hgen]
      have hfilter : ((streamLoop (ch :: chs).length items).1.filter (·.isTerminal)) = [] :=
        List.filter_eq_nil_iff.2 fun e he => by
          simp [streamLoop_fst_not_terminal (ch :: chs).length items e he]
      refine ⟨?_, ?_, ?_⟩
      · rw [List.filter_append, hfilter]
        rfl
      · exact ⟨_, List.getLast?_concat _, rfl⟩
      · refine ⟨ch :: chs, prepare_citations (ch :: chs), (ch :: chs).length,
          (streamLoop (ch :: chs).length items).2.length, ?_⟩
        rw [List.getLast?_concat]
        have hct : contentTexts ((streamLoop (ch :: chs).length items).1 ++
            [.complete (streamLoop (ch :: chs).length items).2 (ch :: chs)
              (prepare_citations (ch :: chs)) (ch :: chs).length
              (streamLoop (ch :: chs).length items).2.length]) =
            contentTexts (streamLoop (ch :: chs).length items).1 := by
          unfold contentTexts
          rw [List.filterMap_append]
          simp
        rw [hct, ← streamLoop_snd_eq_join]

/-- A one-entry collection for concrete streaming evaluations. -/
def exampleCollection : Collection :=
  [⟨"doc_1_chunk_0", "hello world", ⟨1, 0, 11, "f.txt", ".txt", "", 1, "t0"⟩, [0]⟩]

/-- Witness for C3 at a concrete input: one indexed chunk, a model stream
delivering "Hel", an empty delta, a `None` delta, and "lo". -/
theorem streaming_terminal_guarantee_witness :
    search_similar embedZero distZero exampleCollection "q" 5 none ≠ [] ∧
    ((generate_streaming_rag_response embedZero distZero
        (fun _ _ _ _ => ⟨[some "Hel", none, some "", some "lo"], none⟩)
        exampleCollection "q" 5 none (7 / 10) 1000).filter (·.isTerminal)).length = 1 := by
  refine ⟨by decide, ?_⟩
  exact (streaming_terminal_guarantee embedZero distZero
    (fun _ _ _ _ => ⟨[some "Hel", none, some "", some "lo"], none⟩)
    exampleCollection "q" 5 none (7 / 10) 1000 (by decide) rfl).1

/-- The collection as it stands after tenant B (and only tenant B) has
indexed a document containing "unique-token-B": `index_document` records no
tenant in the chunk metadata. -/
def tenantBCollection : Collection :=
  (index_document embedZero "t0" [] 7 [⟨2, "unique-token-B", 14⟩]
    ⟨"b.txt", ".txt", ""⟩).2

/-- C1 failing input: the retrieval step of `generate_rag_response` passes
no tenant filter whatsoever to `search_similar` (the method has no tenant
parameter), so a query made on behalf of tenant A for text present only in
tenant B's documents retrieves tenant B's chunk instead of zero results. -/
theorem cross_tenant_retrieval_leak :
    (search_similar embedZero distZero tenantBCollection "unique-token-B" 5 none).map
      (·.content) = ["unique-token-B"] ∧
    (generate_rag_response embedZero distZero (fun _ _ _ _ => .ok ⟨"ans", ⟨1, 1, 2⟩⟩)
        tenantBCollection "unique-token-B" 5 none (7 / 10) 1000).context_used.map
      (·.content) = ["unique-token-B"] := by
  constructor
  · decide
  · decide

/-! ## Tenant provisioning and routers (`tenant_provisioning.py`,
`routers/documents.py`, `routers/chat.py`)

The relational store is modelled as in-memory row lists. `created_at`
timestamps are modelled at day granularity (`created_day : Int`), which is
the granularity the feedback-trends query buckets by. -/

/-- A row of the `tenants` table (the fields the embedded operations read). -/
structure TenantRow where
  id : String
  is_active : Bool
  max_documents : Nat
  max_chat_messages : Nat
  max_storage_mb : Nat
deriving DecidableEq, Repr

/-- A row of the `documents` table. `tenant_id` is declared
`nullable=False` in `database.py`, so a persisted row always carries a
tenant id: an insert without one is rejected by the store at commit. -/
structure DocumentRow where
  id : Nat
  tenant_id : String
  filename : String
  file_type : String
  is_processed : Bool
deriving DecidableEq, Repr

/-- A row of the `chat_messages` table. -/
structure ChatMessageRow where
  id : Nat
  tenant_id : String
  session_id : String
  feedback : Option Int
  created_day : Int
deriving DecidableEq, Repr

/-- A row of the `chat_sessions` table. -/
structure ChatSessionRow where
  id : Nat
  tenant_id : String
  session_id : String
deriving DecidableEq, Repr

/-- The relational database state. -/
structure Db where
  tenants : List TenantRow
  documents : List DocumentRow
  chat_messages : List ChatMessageRow
  chat_sessions : List ChatSessionRow
deriving DecidableEq, Repr

/-- The usage snapshot built by `TenantProvisioning.get_tenant_usage`
(counts plus the tenant's limits); `storage_mb = doc_count * 0.1` with the
float literal modelled as the rational 1/10. -/
structure TenantUsage where
  documents : Nat
  chat_messages : Nat
  chat_sessions : Nat
  storage_mb : Rat
  max_documents : Nat
  max_chat_messages : Nat
  max_storage_mb : Nat
deriving DecidableEq, Repr

/-- `TenantProvisioning.get_tenant_usage`: `none` models the empty dict
returned when the tenant does not exist. -/
def get_tenant_usage (db : Db) (tenant_id : String) : Option TenantUsage :=
  match db.tenants.find? fun t => t.id == tenant_id with
  | none => none
  | some t =>
    some { documents := (db.documents.filter fun d => d.tenant_id == tenant_id).length
           chat_messages := (db.chat_messages.filter fun m => m.tenant_id == tenant_id).length
           chat_sessions := (db.chat_sessions.filter fun s => s.tenant_id == tenant_id).length
           storage_mb := ((db.documents.filter fun d => d.tenant_id == tenant_id).length : Rat) * (1 / 10)
           max_documents := t.max_documents
           max_chat_messages := t.max_chat_messages
           max_storage_mb := t.max_storage_mb }

/-- `TenantProvisioning.check_tenant_limits`: for the three known resource
types, `current_usage + amount <= limit` (a `none` result models the
`KeyError` raised on the empty usage dict of a missing tenant); any other
resource type falls through to `return True`. -/
def check_tenant_limits (db : Db) (tenant_id : String) (resource_type : String)
    (amount : Nat) : Option Bool :=
  if resource_type = "documents" then
    (get_tenant_usage db tenant_id).map fun u => decide (u.documents + amount ≤ u.max_documents)
  else if resource_type = "chat_messages" then
    (get_tenant_usage db tenant_id).map fun u =>
      decide (u.chat_messages + amount ≤ u.max_chat_messages)
  else if resource_type = "storage" then
    (get_tenant_usage db tenant_id).map fun u =>
      decide (u.storage_mb + (amount : Rat) ≤ (u.max_storage_mb : Rat))
  else
    some true

/-- C10: for every database state holding the tenant, every amount, and
every resource type other than `documents`, `chat_messages` and `storage`,
`check_tenant_limits` returns `True`: unrecognized resource names are never
quota-limited. -/
theorem check_tenant_limits_unknown_resource (db : Db) (tenant_id : String)
    (resource_type : String) (amount : Nat)
    (hten : (db.tenants.find? fun t => t.id == tenant_id).isSome)
    (h1 : resource_type ≠ "documents") (h2 : resource_type ≠ "chat_messages")
    (h3 : resource_type ≠ "storage") :
    check_tenant_limits db tenant_id resource_type amount = some true := by
  unfold check_tenant_limits
  rw [if_neg h1, if_neg h2, if_neg h3]

/-- A one-tenant database with one document and one positively-rated chat
message, all owned by tenant "T", for concrete evaluations. -/
def exampleDb : Db :=
  { tenants := [⟨"T", true, 1, 10000, 1000⟩]
    documents := [⟨1, "T", "doc1.txt", "txt", true⟩]
    chat_messages := [⟨1, "T", "s1", some 1, 0⟩]
    chat_sessions := [⟨1, "T", "s1"⟩] }

/-- Witness for C10 at a concrete input: resource type "gadgets". -/
theorem check_tenant_limits_unknown_resource_witness :
    ((exampleDb.tenants.find? fun t => t.id == "T").isSome) ∧
    check_tenant_limits exampleDb "T" "gadgets" 5 = some true :=
  ⟨by decide, check_tenant_limits_unknown_resource exampleDb "T" "gadgets" 5
    (by decide) (by decide) (by decide) (by decide)⟩

/-- The outcome of the `upload_document` route. There is no success
constructor: the route builds its `Document` without any `tenant_id`, and
`documents.tenant_id` is `nullable=False`, so `db.commit()` always raises
`IntegrityError` (an unhandled generic 500), persisting nothing. -/
inductive UploadOutcome
  | badType
  | saveError
  | invalid
  | integrityError
deriving DecidableEq, Repr

/-- The allowed upload extensions of `upload_document`. -/
def allowed_types : List String := [".pdf", ".md", ".html", ".txt"]

/-- `routers/documents.py upload_document`: validate the extension, save the
file into the upload directory, run `validate_document` (removing the saved
file on failure), then build a `Document` row. Faithful to the source: the
route performs NO quota check (`check_tenant_limits` is never called) and
resolves no tenant, so the row it builds has no tenant id and the NOT NULL
schema rejects it at `db.commit()` (`IntegrityError`): no row is persisted,
the route fails with a generic server error, and the saved file is left
behind (cleanup happens only on the validation-failure path). `files` is the
upload directory contents; `file_extension` stands for
`os.path.splitext(file.filename)[1].lower()`; `saveOk`/`validationOk` stand
for the filesystem write and `validate_document` succeeding. -/
def upload_document (db : Db) (files : List String) (filename : String)
    (file_extension : String) (saveOk : Bool) (validationOk : Bool) :
    UploadOutcome × Db × List String :=
  if allowed_types.contains file_extension then
    if saveOk then
      if validationOk then
        (.integrityError, db, files ++ [filename])
      else (.invalid, db, files)
    else (.saveError, db, files)
  else (.badType, db, files)

/-- `exampleDb` with the document quota not exhausted
(`max_documents = 100`). -/
def exampleDbWithCapacity : Db :=
  { tenants := [⟨"T", true, 100, 10000, 1000⟩]
    documents := [⟨1, "T", "doc1.txt", "txt", true⟩]
    chat_messages := [⟨1, "T", "s1", some 1, 0⟩]
    chat_sessions := [⟨1, "T", "s1"⟩] }

/-- C2 failing input: tenant "T" has `max_documents = 1` and already owns
one document, so `check_tenant_limits` reports no capacity — yet
`upload_document` never consults it. The route first saves the file (a side
effect that survives the failure), then fails only because the tenant-less
`Document` row violates the NOT NULL schema at commit — a generic
`IntegrityError`, not a distinguishable quota-exceeded condition: with
capacity available the outcome is the identical generic failure. No
`Document` row is persisted on either run (the chat-send route, by
contrast, does check its quota before persisting). -/
theorem upload_document_ignores_quota :
    check_tenant_limits exampleDb "T" "documents" 1 = some false ∧
    (upload_document exampleDb [] "doc2.txt" ".txt" true true).1 = .integrityError ∧
    (upload_document exampleDb [] "doc2.txt" ".txt" true true).2.1 = exampleDb ∧
    (upload_document exampleDb [] "doc2.txt" ".txt" true true).2.2 = ["doc2.txt"] ∧
    check_tenant_limits exampleDbWithCapacity "T" "documents" 1 = some true ∧
    (upload_document exampleDbWithCapacity [] "doc2.txt" ".txt" true true).1 =
      .integrityError := by
  refine ⟨by decide, by decide, by decide, by decide, by decide, by decide⟩

/-- One row of the feedback-trends response. `date` is the day the bucket
starts. -/
structure TrendRow where
  date : Int
  positive : Nat
  negative : Nat
  total : Nat
deriving DecidableEq, Repr

/-- `routers/chat.py get_feedback_trends`: for each of the last `days` days,
count the messages of that day and their positive/negative feedback.
Faithful to the source: the resolved `tenant_id` is a parameter of the route
but the query filters only by date — it never filters by tenant. -/
def get_feedback_trends (db : Db) (tenant_id : String) (today : Int) (days : Nat) :
    List TrendRow :=
  ((List.range days).map fun i =>
    { date := today - i
      positive := ((db.chat_messages.filter fun m => m.created_day == today - i).filter
        fun m => m.feedback == some 1).length
      negative := ((db.chat_messages.filter fun m => m.created_day == today - i).filter
        fun m => m.feedback == some (-1)).length
      total := (db.chat_messages.filter fun m => m.created_day == today - i).length }).reverse

/-- The aggregated stats of `get_feedback_stats` (ratios as exact
rationals). -/
structure FeedbackStats where
  total_messages : Nat
  positive_feedback : Nat
  negative_feedback : Nat
  no_feedback : Int
  positive_percentage : Rat
  negative_percentage : Rat
  average_rating : Rat
  feedback_rate : Rat
deriving DecidableEq, Repr

/-- `routers/chat.py get_feedback_stats`: all counts filtered by the
resolved tenant. -/
def get_feedback_stats (db : Db) (tenant_id : String) : FeedbackStats :=
  { total_messages := (db.chat_messages.filter fun m => m.tenant_id == tenant_id).length
    positive_feedback := (db.chat_messages.filter
      fun m => m.feedback == some 1 && m.tenant_id == tenant_id).length
    negative_feedback := (db.chat_messages.filter
      fun m => m.feedback == some (-1) && m.tenant_id == tenant_id).length
    no_feedback :=
      ((db.chat_messages.filter fun m => m.tenant_id == tenant_id).length : Int) -
        (db.chat_messages.filter
          fun m => m.feedback == some 1 && m.tenant_id == tenant_id).length -
        (db.chat_messages.filter
          fun m => m.feedback == some (-1) && m.tenant_id == tenant_id).length
    positive_percentage :=
      if 0 < (db.chat_messages.filter fun m => m.tenant_id == tenant_id).length then
        ((db.chat_messages.filter
          fun m => m.feedback == some 1 && m.tenant_id == tenant_id).length : Rat) /
          ((db.chat_messages.filter fun m => m.tenant_id == tenant_id).length : Rat) * 100
      else 0
    negative_percentage :=
      if 0 < (db.chat_messages.filter fun m => m.tenant_id == tenant_id).length then
        ((db.chat_messages.filter
          fun m => m.feedback == some (-1) && m.tenant_id == tenant_id).length : Rat) /
          ((db.chat_messages.filter fun m => m.tenant_id == tenant_id).length : Rat) * 100
      else 0
    average_rating :=
      if 0 < (db.chat_messages.filter fun m => m.tenant_id == tenant_id).length then
        (((db.chat_messages.filter
          fun m => m.feedback == some 1 && m.tenant_id == tenant_id).length : Rat) -
          ((db.chat_messages.filter
            fun m => m.feedback == some (-1) && m.tenant_id == tenant_id).length : Rat)) /
          ((db.chat_messages.filter fun m => m.tenant_id == tenant_id).length : Rat)
      else 0
    feedback_rate :=
      if 0 < (db.chat_messages.filter fun m => m.tenant_id == tenant_id).length then
        (((db.chat_messages.filter
          fun m => m.feedback == some 1 && m.tenant_id == tenant_id).length : Rat) +
          ((db.chat_messages.filter
            fun m => m.feedback == some (-1) && m.tenant_id == tenant_id).length : Rat)) /
          ((db.chat_messages.filter fun m => m.tenant_id == tenant_id).length : Rat) * 100
      else 0 }

/-- C4 failing input: the database holds a single chat message belonging to
tenant "T" (see `exampleDb`) with positive feedback today; the feedback
stats requested under tenant "A" are correctly empty, but the feedback
trends requested under tenant "A" count tenant "T"'s message — the trends
query filters only by date, never by tenant. -/
theorem feedback_trends_ignore_tenant :
    (get_feedback_stats exampleDb "A").total_messages = 0 ∧
    (get_feedback_stats exampleDb "A").positive_feedback = 0 ∧
    get_feedback_trends exampleDb "A" 0 1 =
      [{ date := 0, positive := 1, negative := 0, total := 1 }] := by
  refine ⟨by decide, by decide, by decide⟩

end DocQuery
